import Mathlib

/-!
Shallow embedding of the consul-k8s health-check operator
(`operators/health-check/handler.go` and its controller file).

Kubernetes string constants are kept as strings, exactly as in `corev1`:
phases are "Pending" / "Running" / ..., condition statuses are
"True" / "False" / "Unknown".  Go map lookup of an absent annotation key
yields the empty string, which the lookup function below reproduces.
-/

namespace HealthCheckOp

/-- A pod condition, mirroring the fields of `corev1.PodCondition` that the
operator reads: `Type`, `Status`, `Reason`, `Message`. -/
structure PodCondition where
  ctype : String
  status : String
  reason : String
  message : String
  deriving DecidableEq, Repr

/-- The slice of `corev1.Pod` the operator reads: name, namespace,
annotations, `Status.Phase`, `Status.HostIP`, `Status.Conditions`. -/
structure Pod where
  name : String
  ns : String
  annotations : List (String × String)
  phase : String
  hostIP : String
  conditions : List PodCondition
  deriving DecidableEq, Repr

/-- Go map indexing `pod.Annotations[k]`: the zero value "" when absent. -/
def annotLookup (annotations : List (String × String)) (k : String) : String :=
  match annotations.find? (fun kv => kv.fst = k) with
  | some kv => kv.snd
  | none => ""

/-- `getConsulServiceID`: `pod.Name + "-" + pod.Annotations["consul.hashicorp.com/connect-service"]`. -/
def getConsulServiceID (pod : Pod) : String :=
  pod.name ++ "-" ++ annotLookup pod.annotations "consul.hashicorp.com/connect-service"

/-- `getConsulHealthCheckID`: `getConsulServiceID(pod) + "-kubernetes-health-check-ttl"`. -/
def getConsulHealthCheckID (pod : Pod) : String :=
  getConsulServiceID pod ++ "-kubernetes-health-check-ttl"

/-- The agent address computed inside `updateConsulClient`:
`httpfmt := "http"; if t.ConsulPort == "8501" then httpfmt = "https";
newAddr := fmt.Sprintf("%v://%v:%v", httpfmt, pod.Status.HostIP, t.ConsulPort)`. -/
def updateConsulClientAddr (consulPort : String) (pod : Pod) : String :=
  let httpfmt := if consulPort = "8501" then "https" else "http"
  httpfmt ++ "://" ++ pod.hostIP ++ ":" ++ consulPort

/-! ## Event filter (controller `addEventHandlers`, `UpdateFunc`) -/

/-- `cache.MetaNamespaceKeyFunc` on a pod: `namespace/name`, or just `name`
when the namespace is empty. -/
def metaNamespaceKey (pod : Pod) : String :=
  if pod.ns = "" then pod.name else pod.ns ++ "/" ++ pod.name

/-- The readiness scan in `UpdateFunc`: start from `ConditionTrue` and
overwrite with the status of every condition whose `Type` is "Ready"
(no break in the Go loop, so the last "Ready" condition wins). -/
def scanReadyStatus (conditions : List PodCondition) : String :=
  conditions.foldl (fun acc y => if y.ctype = "Ready" then y.status else acc) "True"

/-- The body of `UpdateFunc` in `addEventHandlers`, returning the list of
keys added to the work queue (in order).  Mirrors the Go control flow:
  * `reflect.DeepEqual(oldObj, newObj)` short-circuits to no enqueue;
  * Pending -> Running enqueues `"ADD/" + key` and returns;
  * otherwise, only Running new pods are considered, and `"UPDATE/" + key`
    is enqueued exactly when the scanned old and new "Ready" statuses differ. -/
def updateFuncKeys (oldPod newPod : Pod) : List String :=
  if oldPod = newPod then []
  else if oldPod.phase = "Pending" ∧ newPod.phase = "Running" then
    ["ADD/" ++ metaNamespaceKey newPod]
  else if newPod.phase = "Running" then
    let oldPodStatus := scanReadyStatus oldPod.conditions
    let newPodStatus := scanReadyStatus newPod.conditions
    if oldPodStatus ≠ newPodStatus then
      ["UPDATE/" ++ metaNamespaceKey newPod]
    else []
  else []

/-! ## Worker loop (controller `processNextItem`) -/

/-- Observable calls made during one pass of `processNextItem`, in order. -/
inductive WorkerEffect
  | addRateLimited
  | forget
  | handleError
  | done
  | objectCreated
  | objectUpdated
  deriving DecidableEq, Repr

/-- The collaborators one `processNextItem` pass interacts with:
`cache` is `Informer.GetIndexer().GetByKey` (error, or the cached pod with
an existence flag), `createdErr` / `updatedErr` the results of the handler
dispatches, `numRequeues` the queue's `NumRequeues(key)` at this pass, and
`maxRetries` the configured `MaxRetries`. -/
structure WorkerEnv where
  cache : String → Except String (Option Pod)
  createdErr : Option String
  updatedErr : Option String
  numRequeues : Nat
  maxRetries : Nat

/-- Character-level helper for Go `strings.Split(s, "/")`: cut the list of
characters at every '/'.  Always returns at least one (possibly empty)
piece, like `strings.Split`. -/
def splitSlashAux : List Char → List (List Char)
  | [] => [[]]
  | c :: rest =>
      if c = '/' then [] :: splitSlashAux rest
      else
        match splitSlashAux rest with
        | [] => [[c]]
        | l :: ls => (c :: l) :: ls

/-- Go `strings.Split(s, "/")`: the substrings of `s` between slashes. -/
def splitSlash (s : String) : List String :=
  (splitSlashAux s.data).map String.mk

/-- `keyRaw := strings.Join(formattedKey[1:], "/")` where
`formattedKey := strings.Split(key, "/")`. -/
def workerKeyRaw (key : String) : String :=
  String.intercalate "/" (splitSlash key).tail

/-- `create := true; if formattedKey[0] != "ADD" { create = false }`. -/
def workerIsAdd (key : String) : Bool :=
  (splitSlash key).headI = "ADD"

/-- The dispatch block of `processNextItem` for an object present in the
cache: ADD keys run `ObjectCreated` and, when it returns nil,
`ObjectUpdated`; every other key runs `ObjectUpdated` alone.  Returns the
handler calls made (in order) and the resulting `err` value. -/
def workerDispatch (create : Bool) (env : WorkerEnv) : List WorkerEffect × Option String :=
  if create then
    match env.createdErr with
    | some e => ([.objectCreated], some e)
    | none => ([.objectCreated, .objectUpdated], env.updatedErr)
  else ([.objectUpdated], env.updatedErr)

/-- One pass of `processNextItem` on a dequeued `key`, returning the list of
observable calls in order.  Mirrors the Go control flow:
  * a cache lookup error retries (`AddRateLimited`) below `MaxRetries`, else
    `Forget` + `utilruntime.HandleError`; `exists` is false, so no dispatch,
    and the pending error suppresses the final `Done`;
  * when the object exists, `workerDispatch` runs the handlers;
  * a nil dispatch error yields `Forget`, a non-nil one `AddRateLimited`
    below `MaxRetries` and nothing at all once retries are exhausted;
  * `Done` runs only under the final `if err == nil`. -/
def processNextItem (key : String) (env : WorkerEnv) : List WorkerEffect :=
  match env.cache (workerKeyRaw key) with
  | .error _ =>
      if env.numRequeues < env.maxRetries then [.addRateLimited]
      else [.forget, .handleError]
  | .ok none =>
      [.done]
  | .ok (some _) =>
      let dispatch := workerDispatch (workerIsAdd key) env
      let ack : List WorkerEffect :=
        match dispatch.snd with
        | none => [.forget]
        | some _ => if env.numRequeues < env.maxRetries then [.addRateLimited] else []
      let fin : List WorkerEffect :=
        match dispatch.snd with
        | none => [.done]
        | some _ => []
      dispatch.fst ++ ack ++ fin

/-! ## Check registration with retry (`registerConsulHealthCheck`) -/

/-- The record passed to `Client.Agent().CheckRegister`
(`api.AgentCheckRegistration`), restricted to the fields the handler sets. -/
structure CheckRegistration where
  name : String
  notes : String
  serviceID : String
  ttl : String
  status : String
  checkNotes : String
  deriving DecidableEq, Repr

/-- The `backoff.Retry` loop inside `registerConsulHealthCheck`.
`services n` is the result of the n-th `Client.Agent().Services()` call
(0-indexed; the Go counter `retries` is incremented just before the call).
Returns `(retryResult, outerErr)`:
  * `retryResult` is the value `backoff.Retry` returns — with
    `NewConstantBackOff` the backoff never stops, so `Retry` returns exactly
    when the closure first returns nil, and returns that nil;
  * `outerErr` is the value held by the captured outer `err` variable at
    that moment: the closure writes it only in the budget-exhausted branch
    (`retries > 10`), where it then returns nil; the `svc, err :=` inside
    shadows the outer `err`, so no other path writes it.
The recursion is structural on `budget := 11 - retries`: the Go guard
`retries > 10` holds exactly when the budget is exhausted, and `callIdx`
is the value of `retries` just before its increment, so the n-th
`Services()` call (n = 0..10) is `services n`. -/
def retryServiceSearch (services : Nat → Except String (List String))
    (serviceID : String) : Nat → Nat → Option String × Option String
  | 0, _ => (none, some ("did not find serviceID: " ++ serviceID))
  | budget + 1, callIdx =>
    match services callIdx with
    | .ok svc =>
        if svc.contains serviceID then (none, none)
        else retryServiceSearch services serviceID budget (callIdx + 1)
    | .error _ => retryServiceSearch services serviceID budget (callIdx + 1)

/-- `registerConsulHealthCheck`.  Returns the `CheckRegister` calls issued
(zero or one) and the function's result.  The Go line
`err = backoff.Retry(func() error {...}, ...)` first runs `Retry` (during
which the closure may write the captured outer `err`) and then stores the
return value of `Retry` into `err`, overwriting whatever the closure wrote;
the model takes the first component of `retryServiceSearch` accordingly. -/
def registerConsulHealthCheck (services : Nat → Except String (List String))
    (checkRegister : CheckRegistration → Option String)
    (consulHealthCheckID serviceID initialStatus reason : String) :
    List CheckRegistration × Option String :=
  let retryOutcome := retryServiceSearch services serviceID 11 0
  let err := retryOutcome.fst
  match err with
  | some e => ([], some e)
  | none =>
      let reg : CheckRegistration := {
        name := consulHealthCheckID
        notes := "Kubernetes Health Check " ++ reason
        serviceID := serviceID
        ttl := "100000h"
        status := initialStatus
        checkNotes := reason }
      ([reg], checkRegister reg)

/-! ## TTL status updates (`setConsulHealthCheckStatus`, `ObjectUpdated`) -/

/-- A status-setting call against the agent: `FailTTL` or `PassTTL`,
each carrying the check id and the reason string passed along. -/
inductive TTLCall
  | failTTL (checkID reason : String)
  | passTTL (checkID reason : String)
  deriving DecidableEq, Repr

/-- `setConsulHealthCheckStatus`: dispatches to `Agent().FailTTL` when
`fail` and to `Agent().PassTTL` otherwise, forwarding `reason`. -/
def setConsulHealthCheckStatus (healthCheckID reason : String) (fail : Bool) : TTLCall :=
  if fail then .failTTL healthCheckID reason else .passTTL healthCheckID reason

/-- The condition loop inside `ObjectUpdated`: walk the pod's conditions in
order; at the first condition of type "Ready" issue exactly one
status-setting call — `FailTTL` with the condition's `Message` when the
status is not "True", `PassTTL` with the condition's `Message` when it is —
and break.  `setErr` is the result of that agent call (logged, then
returned).  Conditions of other types are passed over. -/
def objectUpdatedLoop (checkID : String) (setErr : Option String) :
    List PodCondition → List TTLCall × Option String
  | [] => ([], none)
  | y :: rest =>
      if y.ctype = "Ready" ∧ y.status ≠ "True" then
        ([setConsulHealthCheckStatus checkID y.message true], setErr)
      else if y.ctype = "Ready" ∧ y.status = "True" then
        ([setConsulHealthCheckStatus checkID y.message false], setErr)
      else objectUpdatedLoop checkID setErr rest

/-- `ObjectUpdated`: bind the client (`updateConsulClient`, whose failure
returns immediately with no agent call), then run the condition loop.
Returns the `TTL` calls issued (in order) and the function's result. -/
def objectUpdated (bindErr : Option String) (setErr : Option String) (pod : Pod) :
    List TTLCall × Option String :=
  match bindErr with
  | some e => ([], some e)
  | none => objectUpdatedLoop (getConsulHealthCheckID pod) setErr pod.conditions

/-! ## Full reconciliation (`Reconcile`, `getReadyStatusAndReason`) -/

/-- `getReadyStatusAndReason`: the first condition of type "Ready" yields
`(Status, Reason)`; with no such condition the Go returns a non-nil error
(alongside zero values), modelled as `.error`. -/
def getReadyStatusAndReason (pod : Pod) : Except String (String × String) :=
  match pod.conditions.find? (fun y => y.ctype = "Ready") with
  | some y => .ok (y.status, y.reason)
  | none => .error ("unable to get pod ready status and reason for " ++ pod.name)

/-- An agent-mutating call issued by `Reconcile`: a check registration or a
TTL status update. -/
inductive ReconcileEffect
  | register (reg : CheckRegistration)
  | ttlCall (call : TTLCall)
  deriving DecidableEq, Repr

/-- The collaborators of one `Reconcile` sweep: `podList` is the result of
the label-selected pod listing; the remaining fields give, per pod, the
results of `updateConsulClient`, `ChecksWithFilter` (pairs of check id and
check status, the agent's checks matching the name filter), the
attempt-indexed `Services()` results, and the `CheckRegister` outcome. -/
structure ReconcileEnv where
  podList : Except String (List Pod)
  bindErr : Pod → Option String
  agentChecks : Pod → Except String (List (String × String))
  services : Pod → Nat → Except String (List String)
  checkRegister : Pod → CheckRegistration → Option String

/-- The per-pod body of the `Reconcile` loop; every early `continue` in the
Go becomes an empty effect list.  Mirrors the Go control flow:
  * skip pods whose phase is not "Running";
  * skip on `updateConsulClient` error;
  * skip on `ChecksWithFilter` error, and also when the returned check set
    is nil or empty (the `"we really shouldn't be here"` guard);
  * skip on `getReadyStatusAndReason` error;
  * with a non-empty check set lacking the health-check id, register a new
    check: status "critical" with the condition's reason when the pod's
    ready status is "False", else "passing" with the reason cleared;
  * with the check present: `fail` starts true; a "critical" stored status
    with ready status "True" flips it to a passing update with empty
    reason; a "passing" stored status with ready status "False" keeps the
    failing update with the condition's reason; anything else makes no
    call.  The two updating branches are exclusive since the stored status
    cannot be both "critical" and "passing". -/
def reconcilePod (env : ReconcileEnv) (pod : Pod) : List ReconcileEffect :=
  if pod.phase ≠ "Running" then []
  else match env.bindErr pod with
  | some _ => []
  | none =>
    let serviceID := getConsulServiceID pod
    let healthCheckID := getConsulHealthCheckID pod
    match env.agentChecks pod with
    | .error _ => []
    | .ok checks =>
      if checks = [] then []
      else match getReadyStatusAndReason pod with
      | .error _ => []
      | .ok sr =>
        match checks.find? (fun c => c.fst = healthCheckID) with
        | none =>
          let initialStatus := if sr.fst = "False" then "critical" else "passing"
          let reason := if sr.fst = "False" then sr.snd else ""
          ((registerConsulHealthCheck (env.services pod) (env.checkRegister pod)
              healthCheckID serviceID initialStatus reason).fst).map .register
        | some c =>
          if c.snd = "critical" ∧ sr.fst = "True" then
            [.ttlCall (setConsulHealthCheckStatus healthCheckID "" false)]
          else if c.snd = "passing" ∧ sr.fst = "False" then
            [.ttlCall (setConsulHealthCheckStatus healthCheckID sr.snd true)]
          else []

/-- The `for _, pod := range podList.Items` loop of `Reconcile`. -/
def reconcileLoop (env : ReconcileEnv) : List Pod → List ReconcileEffect
  | [] => []
  | pod :: rest => reconcilePod env pod ++ reconcileLoop env rest

/-- `Reconcile`: a listing failure is returned; otherwise every pod is
processed in order and the function returns nil (per-pod failures are
logged and skipped, never returned). -/
def reconcile (env : ReconcileEnv) : Except String (List ReconcileEffect) :=
  match env.podList with
  | .error e => .error e
  | .ok pods => .ok (reconcileLoop env pods)

/-! ## Concrete pods and environments used by the theorems below -/

/-- A minimal running pod used as a base for concrete instances. -/
def basePod : Pod := {
  name := "p"
  ns := "default"
  annotations := []
  phase := "Running"
  hostIP := "10.0.0.1"
  conditions := [] }

/-! ## Claim theorems -/

/-- C9: the derived health check id equals the service id concatenated with
"-kubernetes-health-check-ttl"; the service id equals the pod name, "-",
and the value of the connect-service annotation; and the agent address is
scheme://hostIP:port where the scheme is https exactly when the configured
port is "8501" and http otherwise. -/
theorem identifier_and_address_formats (consulPort : String) (pod : Pod) :
    getConsulHealthCheckID pod = getConsulServiceID pod ++ "-kubernetes-health-check-ttl"
    ∧ getConsulServiceID pod =
        pod.name ++ "-" ++ annotLookup pod.annotations "consul.hashicorp.com/connect-service"
    ∧ updateConsulClientAddr consulPort pod =
        (if consulPort = "8501" then "https" else "http") ++ "://" ++ pod.hostIP ++ ":" ++ consulPort :=
  ⟨rfl, rfl, rfl⟩

/-- C6: a pair of non-identical pods transitioning from phase Pending to
phase Running is classified as a Create, enqueuing exactly one ADD key,
whatever the readiness conditions of either pod are. -/
theorem pending_to_running_enqueues_add (oldPod newPod : Pod)
    (hne : oldPod ≠ newPod) (hold : oldPod.phase = "Pending")
    (hnew : newPod.phase = "Running") :
    updateFuncKeys oldPod newPod = ["ADD/" ++ metaNamespaceKey newPod] := by
  unfold updateFuncKeys
  rw [if_neg hne,
    if_pos (show oldPod.phase = "Pending" ∧ newPod.phase = "Running" from ⟨hold, hnew⟩)]

/-- Concrete witness input for C6: the same pod before and after the
Pending-to-Running transition, with a NotReady condition on the new pod. -/
def exPodPending : Pod := { basePod with phase := "Pending" }

/-- The Running successor of `exPodPending`. -/
def exPodRunning : Pod := {
  basePod with
  conditions := [{ ctype := "Ready", status := "False", reason := "r", message := "m" }] }

/-- Witness for C6 at concrete pods. -/
theorem pending_to_running_enqueues_add_witness :
    updateFuncKeys exPodPending exPodRunning = ["ADD/default/p"] :=
  (pending_to_running_enqueues_add exPodPending exPodRunning
    (by decide) rfl rfl).trans (by decide)

/-- C1 (code defect): with an agent whose service list never contains the
target service on any retry attempt, and a succeeding CheckRegister call,
registerConsulHealthCheck still issues the registration and returns nil
instead of the "did not find serviceID" error.  The second conjunct shows
that the retry closure did store that error in the captured outer err —
which the subsequent assignment of backoff.Retry's nil result overwrites. -/
theorem register_proceeds_despite_absent_service :
    registerConsulHealthCheck (fun _ => .ok []) (fun _ => none)
        "web-kubernetes-health-check-ttl" "web" "passing" ""
      = ([{ name := "web-kubernetes-health-check-ttl",
            notes := "Kubernetes Health Check ",
            serviceID := "web"
            ttl := "100000h"
            status := "passing"
            checkNotes := "" }], none)
    ∧ (retryServiceSearch (fun _ => .ok ([] : List String)) "web" 11 0).snd
        = some "did not find serviceID: web" :=
  ⟨rfl, rfl⟩

/-- Concrete input for C4: a Running pod whose Ready condition is True. -/
def exReadyPod : Pod := {
  basePod with
  annotations := [("consul.hashicorp.com/connect-service", "web")]
  conditions := [{ ctype := "Ready", status := "True", reason := "", message := "" }] }

/-- Concrete environment for C4: the listing returns `exReadyPod`, the
client binds, the agent reports no checks matching the name filter, always
lists the service, and registration would succeed. -/
def exEmptyChecksEnv : ReconcileEnv := {
  podList := .ok [exReadyPod]
  bindErr := fun _ => none
  agentChecks := fun _ => .ok []
  services := fun _ _ => .ok ["p-web"]
  checkRegister := fun _ _ => none }

/-- C4 (code defect): for a Running, Ready instance whose agent holds no
check with the expected id, Reconcile registers nothing at all: the empty
check set trips the `"we really shouldn't be here"` guard and the pod is
skipped, contrary to Reconcile's own doc comment ("if the health check
doesnt yet exist it will create it"). -/
theorem reconcile_registers_nothing_without_existing_checks :
    exReadyPod.phase = "Running"
    ∧ getReadyStatusAndReason exReadyPod = .ok ("True", "")
    ∧ (exEmptyChecksEnv.agentChecks exReadyPod).toOption = some []
    ∧ reconcile exEmptyChecksEnv = .ok [] :=
  ⟨rfl, rfl, rfl, rfl⟩

/-- Concrete input refuting C5 as stated: a ready pod whose Ready condition
carries a non-empty message. -/
def exReadyMsgPod : Pod := {
  basePod with
  conditions := [{ ctype := "Ready", status := "True", reason := "r", message := "all good" }] }

/-- Concrete input refuting C5 as stated: a pod with no Ready condition. -/
def exNoReadyPod : Pod := {
  basePod with
  conditions := [{ ctype := "PodScheduled", status := "True", reason := "", message := "" }] }

/-- C5 counterexample: with a successfully bound client, a ready instance
whose Ready condition carries message "all good" gets PassTTL with that
message as the reason — the reason is not cleared — and an instance with no
Ready condition gets no status-setting call at all, so neither "reason
cleared" nor "exactly one call per invocation" holds as claimed. -/
theorem objectUpdated_counterexample :
    objectUpdated none none exReadyMsgPod
      = ([TTLCall.passTTL "p--kubernetes-health-check-ttl" "all good"], none)
    ∧ objectUpdated none none exNoReadyPod = ([], none) :=
  ⟨rfl, rfl⟩

/-- The condition loop of ObjectUpdated passes over conditions whose type
is not "Ready". -/
theorem objectUpdatedLoop_skips_non_ready (checkID : String) (setErr : Option String)
    (l1 rest : List PodCondition) (h : ∀ y ∈ l1, y.ctype ≠ "Ready") :
    objectUpdatedLoop checkID setErr (l1 ++ rest) = objectUpdatedLoop checkID setErr rest := by
  induction l1 with
  | nil => rfl
  | cons y l ih =>
      have hy : y.ctype ≠ "Ready" := h y (List.mem_cons_self y l)
      show objectUpdatedLoop checkID setErr (y :: (l ++ rest)) = _
      rw [objectUpdatedLoop, if_neg (fun hc => hy hc.1), if_neg (fun hc => hy hc.1)]
      exact ih (fun z hz => h z (List.mem_cons_of_mem y hz))

/-- C5 (amended): when the client binds successfully and the pod's
condition list has a first Ready condition `c`, exactly one status-setting
call is issued: FailTTL with `c`'s message when its status is not "True",
and PassTTL with `c`'s message — not cleared — when it is "True".  When
binding fails, or when no Ready condition exists, no status-setting call
is issued at all. -/
theorem objectUpdated_single_call_at_first_ready (pod : Pod) (setErr : Option String)
    (c : PodCondition) (l1 l2 : List PodCondition)
    (hconds : pod.conditions = l1 ++ c :: l2)
    (hready : c.ctype = "Ready")
    (hfirst : ∀ y ∈ l1, y.ctype ≠ "Ready") :
    (objectUpdated none setErr pod).fst
      = [if c.status = "True"
          then TTLCall.passTTL (getConsulHealthCheckID pod) c.message
          else TTLCall.failTTL (getConsulHealthCheckID pod) c.message]
    ∧ (∀ e s2, ∀ pod2 : Pod, (objectUpdated (some e) s2 pod2).fst = [])
    ∧ (∀ s2, ∀ pod2 : Pod, (∀ y ∈ pod2.conditions, y.ctype ≠ "Ready") →
        (objectUpdated none s2 pod2).fst = []) := by
  refine ⟨?_, fun e s2 pod2 => rfl, fun s2 pod2 h2 => ?_⟩
  · show (objectUpdatedLoop (getConsulHealthCheckID pod) setErr pod.conditions).fst = _
    rw [hconds, objectUpdatedLoop_skips_non_ready _ _ _ _ hfirst]
    by_cases hs : c.status = "True"
    · rw [objectUpdatedLoop, if_neg (fun hc => hc.2 hs), if_pos ⟨hready, hs⟩, if_pos hs]
      rfl
    · rw [objectUpdatedLoop, if_pos ⟨hready, hs⟩, if_neg hs]
      rfl
  · show (objectUpdatedLoop (getConsulHealthCheckID pod2) s2 pod2.conditions).fst = []
    have := objectUpdatedLoop_skips_non_ready (getConsulHealthCheckID pod2) s2
      pod2.conditions [] h2
    rw [List.append_nil] at this
    rw [this]
    rfl

/-- Concrete witness input for C5 (amended): a NotReady pod whose Ready
condition follows a non-Ready one. -/
def exNotReadyPod : Pod := {
  basePod with
  conditions := [
    { ctype := "PodScheduled", status := "True", reason := "", message := "" },
    { ctype := "Ready", status := "False", reason := "r", message := "probe failed" }] }

/-- Witness for C5 (amended) at a concrete NotReady pod: one FailTTL call
carrying the condition's message. -/
theorem objectUpdated_single_call_at_first_ready_witness :
    (objectUpdated none none exNotReadyPod).fst
      = [TTLCall.failTTL "p--kubernetes-health-check-ttl" "probe failed"] :=
  ((objectUpdated_single_call_at_first_ready exNotReadyPod none
      { ctype := "Ready", status := "False", reason := "r", message := "probe failed" }
      [{ ctype := "PodScheduled", status := "True", reason := "", message := "" }] []
      rfl rfl (by decide)).1).trans (by decide)

/-- Concrete old pod refuting C7 as stated: Ready condition Unknown. -/
def exUnknownPod : Pod := {
  basePod with
  conditions := [{ ctype := "Ready", status := "Unknown", reason := "", message := "" }] }

/-- Concrete new pod refuting C7 as stated: Ready condition False. -/
def exFalsePod : Pod := {
  basePod with
  conditions := [{ ctype := "Ready", status := "False", reason := "", message := "" }] }

/-- C7 counterexample: for a Running-to-Running pair whose Ready condition
goes from Unknown to False, the readiness booleans (status = "True") agree
— both pods are not ready — yet the filter enqueues an UPDATE key, because
the code compares the raw three-valued condition statuses, not booleans. -/
theorem update_enqueued_though_ready_booleans_equal :
    ((scanReadyStatus exUnknownPod.conditions = "True")
      ↔ (scanReadyStatus exFalsePod.conditions = "True"))
    ∧ updateFuncKeys exUnknownPod exFalsePod = ["UPDATE/default/p"] :=
  ⟨by decide, by decide⟩

/-- C7 (amended): for every pair that is not a Pending-to-Running
transition, when the new pod is Running the filter enqueues exactly one
UPDATE key precisely when the scanned Ready condition status values
(three-valued strings, last Ready condition wins, defaulting to "True"
when absent) differ, and enqueues nothing when they agree; when the new
pod is not Running, nothing is enqueued. -/
theorem update_enqueued_iff_ready_status_differs (oldPod newPod : Pod)
    (hnpr : ¬ (oldPod.phase = "Pending" ∧ newPod.phase = "Running")) :
    (newPod.phase = "Running" →
      updateFuncKeys oldPod newPod =
        (if scanReadyStatus oldPod.conditions = scanReadyStatus newPod.conditions
         then [] else ["UPDATE/" ++ metaNamespaceKey newPod]))
    ∧ (newPod.phase ≠ "Running" → updateFuncKeys oldPod newPod = []) := by
  by_cases hne : oldPod = newPod
  · subst hne
    constructor
    · intro _
      rw [if_pos rfl]
      unfold updateFuncKeys
      rw [if_pos rfl]
    · intro _
      unfold updateFuncKeys
      rw [if_pos rfl]
  · constructor
    · intro hrun
      unfold updateFuncKeys
      rw [if_neg hne, if_neg hnpr, if_pos hrun]
      by_cases hsame : scanReadyStatus oldPod.conditions = scanReadyStatus newPod.conditions
      · rw [if_pos hsame, if_neg (fun hd => hd hsame)]
      · rw [if_neg hsame, if_pos hsame]
    · intro hnrun
      unfold updateFuncKeys
      rw [if_neg hne, if_neg hnpr, if_neg hnrun]

/-- Witness for C7 (amended): a Running pod whose Ready condition flips
from True to False enqueues exactly one UPDATE key. -/
theorem update_enqueued_iff_ready_status_differs_witness :
    updateFuncKeys exReadyMsgPod exFalsePod = ["UPDATE/default/p"] := by
  have h := (update_enqueued_iff_ready_status_differs exReadyMsgPod exFalsePod
    (by decide)).1 rfl
  rw [h]
  decide

/-- Dispatch of a non-ADD key runs ObjectUpdated alone. -/
theorem workerDispatch_false (env : WorkerEnv) :
    workerDispatch false env = ([WorkerEffect.objectUpdated], env.updatedErr) := rfl

/-- Concrete environment refuting C2 as stated: cached object present, the
ObjectUpdated dispatch fails, retries exhausted. -/
def exDispatchFailEnv : WorkerEnv := {
  cache := fun _ => .ok (some basePod)
  createdErr := none
  updatedErr := some "agent down"
  numRequeues := 5
  maxRetries := 5 }

/-- C2 counterexample: a key whose handler dispatch fails with retries
exhausted produces only the ObjectUpdated call — the key is not forgotten
and no error report is emitted, so the failure is silently lost. -/
theorem exhausted_dispatch_failure_unreported :
    processNextItem "UPDATE/default/x" exDispatchFailEnv = [WorkerEffect.objectUpdated] := rfl

/-- C2 (amended): with retries exhausted, a key whose cache lookup fails is
forgotten with exactly one error report and no requeue, but a non-ADD key
whose handler dispatch fails is neither forgotten nor requeued and no
error report is emitted — that failure is dropped silently. -/
theorem retry_exhaustion_two_outcomes
    (key1 key2 : String) (env1 env2 : WorkerEnv) (pod : Pod) (e1 e2 : String)
    (hx1 : env1.maxRetries ≤ env1.numRequeues)
    (hx2 : env2.maxRetries ≤ env2.numRequeues)
    (hc1 : env1.cache (workerKeyRaw key1) = .error e1)
    (hc2 : env2.cache (workerKeyRaw key2) = .ok (some pod))
    (hadd : workerIsAdd key2 = false)
    (hd2 : env2.updatedErr = some e2) :
    processNextItem key1 env1 = [WorkerEffect.forget, WorkerEffect.handleError]
    ∧ processNextItem key2 env2 = [WorkerEffect.objectUpdated] := by
  constructor
  · simp only [processNextItem, hc1]
    rw [if_neg (Nat.not_lt.mpr hx1)]
  · simp only [processNextItem, hc2, hadd, workerDispatch_false, hd2]
    rw [if_neg (Nat.not_lt.mpr hx2)]
    rfl

/-- Concrete environment for the C2 witness: lookup failure, retries
exhausted. -/
def exLookupErrExhEnv : WorkerEnv := {
  cache := fun _ => .error "index corrupted"
  createdErr := none
  updatedErr := none
  numRequeues := 3
  maxRetries := 3 }

/-- Concrete environment for the C2 witness: dispatch failure, retries
exhausted. -/
def exDispatchErrExhEnv : WorkerEnv := {
  cache := fun _ => .ok (some basePod)
  createdErr := none
  updatedErr := some "agent unreachable"
  numRequeues := 3
  maxRetries := 3 }

/-- Witness for C2 (amended) at concrete keys and environments. -/
theorem retry_exhaustion_two_outcomes_witness :
    processNextItem "UPDATE/default/p" exLookupErrExhEnv
      = [WorkerEffect.forget, WorkerEffect.handleError]
    ∧ processNextItem "UPDATE/default/q" exDispatchErrExhEnv
      = [WorkerEffect.objectUpdated] :=
  retry_exhaustion_two_outcomes "UPDATE/default/p" "UPDATE/default/q"
    exLookupErrExhEnv exDispatchErrExhEnv basePod "index corrupted" "agent unreachable"
    (le_refl 3) (le_refl 3) rfl rfl rfl rfl

/-- Concrete environment refuting C3 as stated: the cache lookup errors
with retries remaining. -/
def exLookupErrEnv : WorkerEnv := {
  cache := fun _ => .error "lookup failed"
  createdErr := none
  updatedErr := none
  numRequeues := 0
  maxRetries := 5 }

/-- C3 counterexample: a dequeue whose cache lookup errors leaves a pending
error, so Done is never called for that key. -/
theorem done_not_called_on_lookup_error :
    WorkerEffect.done ∉ processNextItem "UPDATE/default/q" exLookupErrEnv := by
  decide

/-- Done never appears among the handler-dispatch calls themselves. -/
theorem count_done_workerDispatch (create : Bool) (env : WorkerEnv) :
    List.count WorkerEffect.done (workerDispatch create env).fst = 0 := by
  cases create
  · rfl
  · unfold workerDispatch
    cases h : env.createdErr with
    | none => rfl
    | some e => rfl

/-- C3 (amended): Done is called exactly once per dequeue when processing
ends with no pending error — the object was absent from the cache, or it
was dispatched and the dispatch succeeded — and is not called at all on a
cache lookup error or a failed dispatch. -/
theorem done_called_iff_no_pending_error (key : String) (env : WorkerEnv) :
    List.count WorkerEffect.done (processNextItem key env)
      = (match env.cache (workerKeyRaw key), (workerDispatch (workerIsAdd key) env).snd with
         | .error _, _ => 0
         | .ok none, _ => 1
         | .ok (some _), none => 1
         | .ok (some _), some _ => 0) := by
  unfold processNextItem
  cases hcache : env.cache (workerKeyRaw key) with
  | error e =>
      by_cases hlt : env.numRequeues < env.maxRetries
      · rw [if_pos hlt]
        rfl
      · rw [if_neg hlt]
        rfl
  | ok o =>
      cases o with
      | none => rfl
      | some pod =>
          simp only []
          cases hd : (workerDispatch (workerIsAdd key) env).snd with
          | none =>
              simp only [List.count_append, count_done_workerDispatch]
              decide
          | some e =>
              by_cases hlt : env.numRequeues < env.maxRetries
              · rw [if_pos hlt]
                simp only [List.count_append, count_done_workerDispatch]
                decide
              · rw [if_neg hlt]
                simp only [List.count_append, count_done_workerDispatch]
                decide

/-- C10: a dequeued key whose first "/"-segment is not "ADD" — unknown
action tags and malformed keys with missing segments included — is
dispatched to the Update path (ObjectUpdated) whenever the referenced
object is in the cache; its shape is never rejected and never reported as
an error. -/
theorem non_add_key_goes_to_update_path (key : String) (env : WorkerEnv) (pod : Pod)
    (hhead : (splitSlash key).headI ≠ "ADD")
    (hcache : env.cache (workerKeyRaw key) = .ok (some pod)) :
    WorkerEffect.objectUpdated ∈ processNextItem key env
    ∧ WorkerEffect.objectCreated ∉ processNextItem key env
    ∧ WorkerEffect.handleError ∉ processNextItem key env := by
  have hadd : workerIsAdd key = false := by
    unfold workerIsAdd
    exact decide_eq_false hhead
  simp only [processNextItem, hcache, hadd, workerDispatch_false]
  cases hu : env.updatedErr with
  | none => refine ⟨?_, ?_, ?_⟩ <;> simp
  | some e =>
      by_cases hlt : env.numRequeues < env.maxRetries
      · rw [if_pos hlt]
        refine ⟨?_, ?_, ?_⟩ <;> simp
      · rw [if_neg hlt]
        refine ⟨?_, ?_, ?_⟩ <;> simp

/-- Concrete environment for the C10 witness: every lookup hits. -/
def exMalformedKeyEnv : WorkerEnv := {
  cache := fun _ => .ok (some basePod)
  createdErr := none
  updatedErr := none
  numRequeues := 0
  maxRetries := 5 }

/-- Witness for C10 at the malformed single-segment key "p". -/
theorem non_add_key_goes_to_update_path_witness :
    WorkerEffect.objectUpdated ∈ processNextItem "p" exMalformedKeyEnv
    ∧ WorkerEffect.objectCreated ∉ processNextItem "p" exMalformedKeyEnv
    ∧ WorkerEffect.handleError ∉ processNextItem "p" exMalformedKeyEnv :=
  non_add_key_goes_to_update_path "p" exMalformedKeyEnv basePod (by decide) rfl

/-- The Reconcile sweep distributes over list concatenation. -/
theorem reconcileLoop_append (env : ReconcileEnv) (a b : List Pod) :
    reconcileLoop env (a ++ b) = reconcileLoop env a ++ reconcileLoop env b := by
  induction a with
  | nil => rfl
  | cons p l ih =>
      show reconcilePod env p ++ reconcileLoop env (l ++ b)
        = (reconcilePod env p ++ reconcileLoop env l) ++ reconcileLoop env b
      rw [ih, List.append_assoc]

/-- A per-instance failure — client binding, agent check query, or a
missing Ready condition — makes the sweep emit nothing for that pod. -/
theorem reconcilePod_eq_nil_of_failure (env : ReconcileEnv) (pod : Pod)
    (hfail : env.bindErr pod ≠ none
      ∨ (∃ e, env.agentChecks pod = Except.error e)
      ∨ (∃ e, getReadyStatusAndReason pod = Except.error e)) :
    reconcilePod env pod = [] := by
  by_cases hph : pod.phase ≠ "Running"
  · unfold reconcilePod
    rw [if_pos hph]
  · rcases hfail with hf | ⟨e, hf⟩ | ⟨e, hf⟩
    · cases hb : env.bindErr pod with
      | some e2 =>
          unfold reconcilePod
          rw [if_neg hph, hb]
      | none => exact absurd hb hf
    · unfold reconcilePod
      rw [if_neg hph]
      cases hb : env.bindErr pod with
      | some e2 => rfl
      | none => simp only [hf]
    · unfold reconcilePod
      rw [if_neg hph]
      cases hb : env.bindErr pod with
      | some e2 => rfl
      | none =>
          cases hc : env.agentChecks pod with
          | error e2 => rfl
          | ok checks =>
              by_cases hemp : checks = []
              · subst hemp
                rfl
              · simp only [if_neg hemp, hf]

/-- C8: Reconcile returns an error exactly when the top-level pod listing
fails, and a per-instance failure (client binding error, agent check-query
error, or missing Ready condition) makes that instance contribute nothing
while every other instance is still processed: the sweep result equals the
concatenation of the results for the pods before and after it. -/
theorem reconcile_per_instance_failures_nonfatal (env : ReconcileEnv)
    (pod : Pod) (l1 l2 : List Pod)
    (hlist : env.podList = .ok (l1 ++ pod :: l2))
    (hfail : env.bindErr pod ≠ none
      ∨ (∃ e, env.agentChecks pod = Except.error e)
      ∨ (∃ e, getReadyStatusAndReason pod = Except.error e)) :
    reconcile env = .ok (reconcileLoop env l1 ++ reconcileLoop env l2)
    ∧ (∀ env2 : ReconcileEnv, ∀ e, reconcile env2 = .error e ↔ env2.podList = .error e) := by
  constructor
  · simp only [reconcile, hlist, reconcileLoop_append]
    show Except.ok (reconcileLoop env l1 ++ (reconcilePod env pod ++ reconcileLoop env l2)) = _
    rw [reconcilePod_eq_nil_of_failure env pod hfail]
    rfl
  · intro env2 e
    unfold reconcile
    cases h : env2.podList with
    | error e2 =>
        show Except.error e2 = Except.error e ↔ Except.error e2 = Except.error e
        simp
    | ok pods =>
        show Except.ok (reconcileLoop env2 pods) = Except.error e
          ↔ Except.ok pods = Except.error e
        constructor
        · intro hcontra
          cases hcontra
        · intro hcontra
          cases hcontra

/-- A Running, Ready pod used in the C8 witness sweep. -/
def exSweepGood1 : Pod := {
  basePod with
  name := "g1"
  conditions := [{ ctype := "Ready", status := "True", reason := "", message := "" }] }

/-- A second Running, Ready pod used in the C8 witness sweep. -/
def exSweepGood2 : Pod := { exSweepGood1 with name := "g2" }

/-- The pod whose client binding fails in the C8 witness sweep. -/
def exSweepBad : Pod := { exSweepGood1 with name := "bad" }

/-- Concrete environment for the C8 witness: three pods, the middle one
failing client binding, every agent holding a passing check. -/
def exSweepEnv : ReconcileEnv := {
  podList := .ok [exSweepGood1, exSweepBad, exSweepGood2]
  bindErr := fun p => if p.name = "bad" then some "connection refused" else none
  agentChecks := fun p => .ok [(getConsulHealthCheckID p, "passing")]
  services := fun _ _ => .ok []
  checkRegister := fun _ _ => none }

/-- Witness for C8 at the concrete three-pod sweep. -/
theorem reconcile_per_instance_failures_nonfatal_witness :
    reconcile exSweepEnv
      = .ok (reconcileLoop exSweepEnv [exSweepGood1] ++ reconcileLoop exSweepEnv [exSweepGood2])
    ∧ (∀ env2 : ReconcileEnv, ∀ e, reconcile env2 = .error e ↔ env2.podList = .error e) :=
  reconcile_per_instance_failures_nonfatal exSweepEnv exSweepBad
    [exSweepGood1] [exSweepGood2] rfl (Or.inl (by decide))

end HealthCheckOp
